import Mathlib

/-!
Shallow embedding of the table-based authentication module
(`src/lib/tableAuth.ts`) of the HRDESK repository.

Modelling conventions:
* Database tables (`profiles`, `user_roles`, `user_sessions`) are lists of
  rows; the browser-local session store is a pair of optional string keys.
* Each remote call whose returned `error`/`data` the code inspects gets an
  explicit fault flag in an environment record; `maybeSingle` is modelled
  faithfully (zero rows → none, one row → some, several rows → error).
  Fire-and-forget deletes (logout, expiry reaping, rollback), whose result
  the code discards, take effect on the table.
* Remote procedures `hash_password` / `verify_password`, the generated ids
  and the random token bytes are supplied through the environment.
* JavaScript falsiness of strings (`"" || x`, `!s`) is modelled explicitly.
-/

namespace TableAuth

/-- A row of the `profiles` table, with the columns the auth module touches. -/
structure ProfileRow where
  id : String
  user_id : String
  email : String
  first_name : String
  last_name : String
  password_hash : Option String
  phone : Option String
  department_id : Option String
  designation_id : Option String
  date_of_birth : Option String
  joining_date : String
  employee_id : Option String
  reporting_manager : Option String
  deriving DecidableEq, Repr

/-- A row of the `user_roles` table. -/
structure UserRoleRow where
  user_id : String
  role : String
  deriving DecidableEq, Repr

/-- A row of the `user_sessions` table. -/
structure SessionRow where
  profile_id : String
  session_token : String
  expires_at : Int
  deriving DecidableEq, Repr

/-- The three remote tables the auth module reads and writes. -/
structure Db where
  profiles : List ProfileRow
  user_roles : List UserRoleRow
  user_sessions : List SessionRow
  deriving DecidableEq, Repr

/-- The browser-local session store: keys `hrms_session_token`, `hrms_user_id`. -/
structure SessionStore where
  hrms_session_token : Option String
  hrms_user_id : Option String
  deriving DecidableEq, Repr

/-- Combined mutable state visible to the auth module. -/
structure AuthState where
  db : Db
  store : SessionStore
  deriving DecidableEq, Repr

/-- The user view returned to the app (interface `TableUser`). -/
structure TableUser where
  id : String
  profileId : String
  email : String
  firstName : String
  lastName : String
  role : String
  deriving DecidableEq, Repr

/-- Result shape of `tableLogin` (interface `LoginResult`). -/
structure LoginResult where
  success : Bool
  user : Option TableUser
  error : Option String
  deriving DecidableEq, Repr

/-- Result shape of `createTableUser` (interface `CreateUserResult`). -/
structure CreateUserResult where
  success : Bool
  userId : Option String
  profileId : Option String
  error : Option String
  deriving DecidableEq, Repr

/-- Result shape of `updatePassword`. -/
structure UpdateResult where
  success : Bool
  error : Option String
  deriving DecidableEq, Repr

/-- Semantics of `maybeSingle()`: none for zero rows, the row for one,
an error for more than one. -/
def maybeSingle {α : Type} (rows : List α) : Except Unit (Option α) :=
  match rows with
  | [] => Except.ok none
  | [r] => Except.ok (some r)
  | _ => Except.error ()

/-- A remote `select ... maybeSingle()` call: an injected transport fault
produces an error, otherwise `maybeSingle` of the matching rows. -/
def remoteQuery {α : Type} (fault : Bool) (rows : List α) : Except Unit (Option α) :=
  if fault then Except.error () else maybeSingle rows

/-- JavaScript `o || d` on an optional string: `undefined`/`null` and the
empty string are falsy. -/
def jsOrString (o : Option String) (d : String) : String :=
  match o with
  | some s => if s = "" then d else s
  | none => d

/-- JavaScript `o || null` on an optional string: collapses the empty
string to null. -/
def jsOrNull (o : Option String) : Option String :=
  match o with
  | some s => if s = "" then none else some s
  | none => none

/-- Embedding of the per-byte JavaScript rendering (toString in base 16,
then padStart to width 2 with zero): lowercase hex, left-padded to two
characters. -/
def byteToHex (b : Nat) : String :=
  let s := (Nat.toDigits 16 b).asString
  if s.length < 2 then "0" ++ s else s

/-- Embedding of `generateSessionToken`, as a function of the 32 random
bytes drawn from `crypto.getRandomValues`: hex-encode each byte and join
with no separator. -/
def generateSessionToken (bytes : List Nat) : String :=
  String.join (bytes.map byteToHex)

/-- Embedding of `email.toLowerCase().trim()`: lowercase every character,
then strip leading and trailing whitespace, written at the character-list
level. -/
def normalizeEmail (e : String) : String :=
  let lowered := e.data.map Char.toLower
  let trimmed :=
    (((lowered.dropWhile Char.isWhitespace).reverse.dropWhile Char.isWhitespace).reverse)
  String.mk trimmed

/-- Seven days in milliseconds (`expiresAt.setDate(expiresAt.getDate() + 7)`). -/
def sevenDaysMs : Int := 7 * 24 * 60 * 60 * 1000

/-- Environment of one `tableLogin` call: fault flags for the four remote
calls whose outcome the code inspects, the behaviour of the remote
`verify_password` procedure, the random token bytes and the current time. -/
structure LoginEnv where
  profileFault : Bool
  verifyFault : Bool
  verify : String → String → Bool
  roleFault : Bool
  sessionInsertFault : Bool
  tokenBytes : List Nat
  now : Int

/-- Embedding of `tableLogin(email, password)`: profile lookup by normalized email,
password verification, role lookup, session insert, session-store write. -/
def tableLogin (env : LoginEnv) (email password : String) (st : AuthState) :
    LoginResult × AuthState :=
  match remoteQuery env.profileFault
      (st.db.profiles.filter (fun p => p.email = normalizeEmail email)) with
  | Except.error _ =>
    ({ success := false, user := none, error := some "Login failed. Please try again." }, st)
  | Except.ok none =>
    ({ success := false, user := none, error := some "Invalid email or password" }, st)
  | Except.ok (some profile) =>
    match profile.password_hash with
    | none =>
      ({ success := false, user := none,
         error := some "Account not properly configured. Please contact admin." }, st)
    | some hash =>
      if hash = "" then
        ({ success := false, user := none,
           error := some "Account not properly configured. Please contact admin." }, st)
      else if env.verifyFault then
        ({ success := false, user := none, error := some "Login failed. Please try again." }, st)
      else if env.verify password hash = false then
        ({ success := false, user := none, error := some "Invalid email or password" }, st)
      else
        match remoteQuery env.roleFault
            (st.db.user_roles.filter (fun r => r.user_id = profile.user_id)) with
        | Except.error _ =>
          ({ success := false, user := none, error := some "User role not found" }, st)
        | Except.ok none =>
          ({ success := false, user := none, error := some "User role not found" }, st)
        | Except.ok (some roleData) =>
          let sessionToken := generateSessionToken env.tokenBytes
          let expiresAt := env.now + sevenDaysMs
          if env.sessionInsertFault then
            ({ success := false, user := none, error := some "Failed to create session" }, st)
          else
            let newSession : SessionRow :=
              { profile_id := profile.id, session_token := sessionToken,
                expires_at := expiresAt }
            ({ success := true,
               user := some
                 { id := profile.user_id, profileId := profile.id, email := profile.email,
                   firstName := profile.first_name, lastName := profile.last_name,
                   role := roleData.role },
               error := none },
             { db := { st.db with user_sessions := newSession :: st.db.user_sessions },
               store := { hrms_session_token := some sessionToken,
                          hrms_user_id := some profile.user_id } })

/-- Embedding of `tableLogout()`: best-effort delete of the session row
matching the stored token, then unconditional clearing of both
session-store keys. -/
def tableLogout (st : AuthState) : AuthState :=
  let st1 :=
    match st.store.hrms_session_token with
    | some sessionToken =>
      let remaining := st.db.user_sessions.filter (fun s : SessionRow => s.session_token ≠ sessionToken)
      { st with db := { st.db with user_sessions := remaining } }
    | none => st
  { st1 with store := { hrms_session_token := none, hrms_user_id := none } }

/-- Environment of one `getSessionUser` call: current time and fault flags
for the session, profile and role lookups. -/
structure GetSessionEnv where
  now : Int
  sessionFault : Bool
  profileFault : Bool
  roleFault : Bool
  deriving DecidableEq, Repr

/-- Embedding of `getSessionUser()`: stored-token check, session lookup, lazy expiry,
profile resolution, role resolution with `employee` fallback. -/
def getSessionUser (env : GetSessionEnv) (st : AuthState) :
    Option TableUser × AuthState :=
  match st.store.hrms_session_token with
  | none => (none, st)
  | some sessionToken =>
    match remoteQuery env.sessionFault
        (st.db.user_sessions.filter (fun s => s.session_token = sessionToken)) with
    | Except.error _ =>
      (none, { st with store := { hrms_session_token := none, hrms_user_id := none } })
    | Except.ok none =>
      (none, { st with store := { hrms_session_token := none, hrms_user_id := none } })
    | Except.ok (some session) =>
      if session.expires_at < env.now then
        let remaining := st.db.user_sessions.filter (fun s : SessionRow => s.session_token ≠ sessionToken)
        (none,
         { db := { st.db with user_sessions := remaining },
           store := { hrms_session_token := none, hrms_user_id := none } })
      else
        match remoteQuery env.profileFault
            (st.db.profiles.filter (fun p => p.id = session.profile_id)) with
        | Except.error _ => (none, st)
        | Except.ok none => (none, st)
        | Except.ok (some profile) =>
          let roleData :=
            match remoteQuery env.roleFault
                (st.db.user_roles.filter (fun r => r.user_id = profile.user_id)) with
            | Except.error _ => none
            | Except.ok r => r
          (some { id := profile.user_id, profileId := profile.id, email := profile.email,
                  firstName := profile.first_name, lastName := profile.last_name,
                  role := jsOrString (roleData.map (fun r => r.role)) "employee" },
           st)

/-- Optional extra attributes accepted by `createTableUser`. -/
structure AdditionalData where
  phone : Option String
  department_id : Option String
  designation_id : Option String
  date_of_birth : Option String
  joining_date : Option String
  employee_id : Option String
  reporting_manager : Option String
  deriving DecidableEq, Repr

/-- Environment of one `createTableUser` call: fault flags, the remote
`hash_password` output, the generated UUID and profile id, the profile
error message of the profile insert, and the current date. -/
structure CreateUserEnv where
  existsFault : Bool
  hashFault : Bool
  hash : String
  userId : String
  profileInsertFault : Bool
  profileInsertErrMsg : String
  newProfileId : String
  roleInsertFault : Bool
  today : String
  deriving DecidableEq, Repr

/-- Embedding of `createTableUser`:
duplicate-email check (error channel discarded), remote hashing, profile
insert, role insert with compensating profile delete on failure. -/
def createTableUser (env : CreateUserEnv) (email _password firstName lastName role : String)
    (additionalData : Option AdditionalData) (st : AuthState) :
    CreateUserResult × AuthState :=
  let existing : Option ProfileRow :=
    match remoteQuery env.existsFault
        (st.db.profiles.filter (fun p => p.email = normalizeEmail email)) with
    | Except.error _ => none
    | Except.ok r => r
  match existing with
  | some _ =>
    ({ success := false, userId := none, profileId := none,
       error := some "Email already registered" }, st)
  | none =>
    if env.hashFault ∨ env.hash = "" then
      ({ success := false, userId := none, profileId := none,
         error := some "Failed to secure password" }, st)
    else
      let userId := env.userId
      if env.profileInsertFault then
        ({ success := false, userId := none, profileId := none,
           error := some env.profileInsertErrMsg }, st)
      else
        let newProfile : ProfileRow :=
          { id := env.newProfileId, user_id := userId, email := normalizeEmail email,
            first_name := firstName, last_name := lastName,
            password_hash := some env.hash,
            phone := jsOrNull (additionalData.bind (fun a => a.phone)),
            department_id := jsOrNull (additionalData.bind (fun a => a.department_id)),
            designation_id := jsOrNull (additionalData.bind (fun a => a.designation_id)),
            date_of_birth := jsOrNull (additionalData.bind (fun a => a.date_of_birth)),
            joining_date := jsOrString (additionalData.bind (fun a => a.joining_date)) env.today,
            employee_id := jsOrNull (additionalData.bind (fun a => a.employee_id)),
            reporting_manager := jsOrNull (additionalData.bind (fun a => a.reporting_manager)) }
        let st1 := { st with db := { st.db with profiles := newProfile :: st.db.profiles } }
        if env.roleInsertFault then
          let remaining := st1.db.profiles.filter (fun p : ProfileRow => p.id ≠ newProfile.id)
          let st2 := { st1 with db := { st1.db with profiles := remaining } }
          ({ success := false, userId := none, profileId := none,
             error := some "Failed to assign role" }, st2)
        else
          let newRole : UserRoleRow := { user_id := userId, role := role }
          let st2 := { st1 with db := { st1.db with user_roles := newRole :: st1.db.user_roles } }
          ({ success := true, userId := some userId, profileId := some newProfile.id,
             error := none }, st2)

/-- Environment of one `updatePassword` call: the remote hash outcome and
the fault flag and error message of the update call. -/
structure UpdatePasswordEnv where
  hashFault : Bool
  hash : String
  updateFault : Bool
  updateErrMsg : String
  deriving DecidableEq, Repr

/-- Embedding of `updatePassword(profileId, newPassword)`: remote hashing,
then an unconditional update filtered by profile id, with no matched-row
check. -/
def updatePassword (env : UpdatePasswordEnv) (profileId _newPassword : String)
    (st : AuthState) : UpdateResult × AuthState :=
  if env.hashFault ∨ env.hash = "" then
    ({ success := false, error := some "Failed to secure password" }, st)
  else if env.updateFault then
    ({ success := false, error := some env.updateErrMsg }, st)
  else
    let updated := st.db.profiles.map (fun p =>
      if p.id = profileId then { p with password_hash := some env.hash } else p)
    ({ success := true, error := none },
     { st with db := { st.db with profiles := updated } })

/-! Concrete fixtures used by the witness theorems. -/

/-- A sample profile row. -/
def sampleProfile : ProfileRow :=
  { id := "p1", user_id := "u1", email := "a@b.com", first_name := "Ada",
    last_name := "Lovelace", password_hash := some "hash1", phone := none,
    department_id := none, designation_id := none, date_of_birth := none,
    joining_date := "2026-01-01", employee_id := none, reporting_manager := none }

/-- A sample session row for `sampleProfile`, expiring at time 100. -/
def sampleSession : SessionRow :=
  { profile_id := "p1", session_token := "tok1", expires_at := 100 }

/-- An empty session store. -/
def emptyStore : SessionStore := { hrms_session_token := none, hrms_user_id := none }

/-- A state with empty tables and an empty store. -/
def stEmpty : AuthState :=
  { db := { profiles := [], user_roles := [], user_sessions := [] }, store := emptyStore }

/-- A state holding `sampleProfile`, its session row, no role rows, and the
session token in the store. -/
def stAlice : AuthState :=
  { db := { profiles := [sampleProfile], user_roles := [], user_sessions := [sampleSession] },
    store := { hrms_session_token := some "tok1", hrms_user_id := some "u1" } }

/-- An update-password environment with a healthy remote hash and update. -/
def upEnvOk : UpdatePasswordEnv :=
  { hashFault := false, hash := "newhash", updateFault := false, updateErrMsg := "" }

/-- A create-user environment whose role insert faults and everything else
succeeds. -/
def cuEnvRoleFail : CreateUserEnv :=
  { existsFault := false, hashFault := false, hash := "h2", userId := "u2",
    profileInsertFault := false, profileInsertErrMsg := "", newProfileId := "p2",
    roleInsertFault := true, today := "2026-02-02" }

/-- A create-user environment in which every remote call succeeds. -/
def cuEnvOk : CreateUserEnv :=
  { existsFault := false, hashFault := false, hash := "h2", userId := "u2",
    profileInsertFault := false, profileInsertErrMsg := "", newProfileId := "p2",
    roleInsertFault := false, today := "2026-02-02" }

/-- A get-session environment with no faults, at time 200 (after
`sampleSession` expires). -/
def gsEnvLate : GetSessionEnv :=
  { now := 200, sessionFault := false, profileFault := false, roleFault := false }

/-- A get-session environment with no faults, at time 50 (before
`sampleSession` expires). -/
def gsEnvEarly : GetSessionEnv :=
  { now := 50, sessionFault := false, profileFault := false, roleFault := false }

/-- A login environment with no faults whose password verification always
fails. -/
def loginEnvReject : LoginEnv :=
  { profileFault := false, verifyFault := false, verify := fun _ _ => false,
    roleFault := false, sessionInsertFault := false, tokenBytes := [0], now := 0 }

/-- A login environment with no faults whose password verification always
succeeds. -/
def loginEnvAccept : LoginEnv :=
  { profileFault := false, verifyFault := false, verify := fun _ _ => true,
    roleFault := false, sessionInsertFault := false, tokenBytes := [0], now := 0 }

/-- A role row granting `"hr"` to the user of `sampleProfile`. -/
def roleRowHr : UserRoleRow := { user_id := "u1", role := "hr" }

/-- A state holding `sampleProfile` and its `"hr"` role row, with no
sessions and an empty store. -/
def stAliceHr : AuthState :=
  { db := { profiles := [sampleProfile], user_roles := [roleRowHr], user_sessions := [] },
    store := emptyStore }

/-- Recognizer for lowercase hexadecimal digit characters. -/
def isLowerHexDigit (c : Char) : Bool :=
  c.isDigit || ('a' ≤ c && c ≤ 'f')

/-- The character data of the hex encoding of a byte list: the
concatenation of the two-character encodings of the bytes. -/
def hexDataOf (bytes : List Nat) : List Char :=
  bytes.foldr (fun b acc => (byteToHex b).data ++ acc) []

/-- Thirty-two distinct byte values, a concrete draw of random token bytes. -/
def bytesA : List Nat := List.range 32

/-- Thirty-two zero bytes, a second concrete draw of random token bytes. -/
def bytesB : List Nat := List.replicate 32 0

/-- A fault-free login environment drawing `bytesA` as token bytes. -/
def loginEnvTokA : LoginEnv :=
  { profileFault := false, verifyFault := false, verify := fun _ _ => true,
    roleFault := false, sessionInsertFault := false, tokenBytes := bytesA, now := 0 }

/-- A fault-free login environment drawing `bytesB` as token bytes. -/
def loginEnvTokB : LoginEnv :=
  { profileFault := false, verifyFault := false, verify := fun _ _ => true,
    roleFault := false, sessionInsertFault := false, tokenBytes := bytesB, now := 0 }

/-! Claim theorems. -/

/-- C10: for every profileId (including one matching no Profile row),
`updatePassword` returns success whenever the remote hash is non-empty and
the update call reports no error; no matched-row check is performed. -/
theorem claim10_updatePassword_success_without_match_check
    (env : UpdatePasswordEnv) (profileId newPassword : String) (st : AuthState)
    (hh : env.hashFault = false) (hne : env.hash ≠ "") (hu : env.updateFault = false) :
    (updatePassword env profileId newPassword st).1 = { success := true, error := none } := by
  simp [updatePassword, hh, hne, hu]

/-- Witness for C10: concrete run on an empty profiles table (no row matches
`"ghost"`), still reporting success. -/
theorem claim10_witness :
    (updatePassword upEnvOk "ghost" "pw" stEmpty).1 = { success := true, error := none } :=
  claim10_updatePassword_success_without_match_check upEnvOk "ghost" "pw" stEmpty rfl
    (by decide) rfl

/-- C8: when exactly one Profile with the normalized email already exists
(the email-uniqueness invariant of the data model) and the existence lookup does
not fault, `createTableUser` fails with "Email already registered" and
leaves the whole state unchanged: no second Profile row and no Role row. -/
theorem claim8_duplicate_email_rejected_atomically
    (env : CreateUserEnv) (email password firstName lastName role : String)
    (ad : Option AdditionalData) (st : AuthState) (p0 : ProfileRow)
    (hef : env.existsFault = false)
    (hone : st.db.profiles.filter (fun p => p.email = normalizeEmail email) = [p0]) :
    (createTableUser env email password firstName lastName role ad st).1 =
      { success := false, userId := none, profileId := none,
        error := some "Email already registered" } ∧
    (createTableUser env email password firstName lastName role ad st).2 = st := by
  simp [createTableUser, remoteQuery, maybeSingle, hef, hone]

/-- Witness for C8: creating `"A@B.com "` while `sampleProfile` already owns
`"a@b.com"` is rejected and the state is untouched. -/
theorem claim8_witness :
    (createTableUser cuEnvOk "A@B.com " "pw" "X" "Y" "hr" none stAlice).1 =
      { success := false, userId := none, profileId := none,
        error := some "Email already registered" } ∧
    (createTableUser cuEnvOk "A@B.com " "pw" "X" "Y" "hr" none stAlice).2 = stAlice :=
  claim8_duplicate_email_rejected_atomically cuEnvOk "A@B.com " "pw" "X" "Y" "hr" none
    stAlice sampleProfile rfl (by decide)

/-- C9: `tableLogout` unconditionally clears both session-store keys,
deletes the matching Session row exactly when a token was stored, is
idempotent, and any `getSessionUser` right after it returns none without
changing the state further. -/
theorem claim9_logout_then_getSessionUser_none (st : AuthState) (env : GetSessionEnv) :
    (tableLogout st).store = { hrms_session_token := none, hrms_user_id := none } ∧
    (∀ tok, st.store.hrms_session_token = some tok →
      (tableLogout st).db.user_sessions =
        st.db.user_sessions.filter (fun s : SessionRow => s.session_token ≠ tok)) ∧
    (st.store.hrms_session_token = none → (tableLogout st).db = st.db) ∧
    tableLogout (tableLogout st) = tableLogout st ∧
    getSessionUser env (tableLogout st) = (none, tableLogout st) := by
  cases h : st.store.hrms_session_token <;>
    simp [tableLogout, getSessionUser, h]

/-- Witness for C9: logging out of `stAlice` clears the store, removes the
session row of the stored token, and a subsequent `getSessionUser` yields none. -/
theorem claim9_witness :
    (tableLogout stAlice).store = { hrms_session_token := none, hrms_user_id := none } ∧
    (tableLogout stAlice).db.user_sessions =
      stAlice.db.user_sessions.filter (fun s : SessionRow => s.session_token ≠ "tok1") ∧
    getSessionUser gsEnvEarly (tableLogout stAlice) = (none, tableLogout stAlice) := by
  refine ⟨(claim9_logout_then_getSessionUser_none stAlice gsEnvEarly).1,
    (claim9_logout_then_getSessionUser_none stAlice gsEnvEarly).2.1 "tok1" rfl,
    (claim9_logout_then_getSessionUser_none stAlice gsEnvEarly).2.2.2.2⟩

/-- C3: when the Session row of the stored token is found (no fault) and its
expiry is strictly in the past, `getSessionUser` deletes that Session row,
clears both session-store keys and returns none; the immediately following
`getSessionUser` call also returns none without erroring or changing state. -/
theorem claim3_expired_session_reaped_idempotently
    (env env2 : GetSessionEnv) (st : AuthState) (tok : String) (srow : SessionRow)
    (htok : st.store.hrms_session_token = some tok)
    (hsf : env.sessionFault = false)
    (hrow : st.db.user_sessions.filter (fun s => s.session_token = tok) = [srow])
    (hexp : srow.expires_at < env.now) :
    (getSessionUser env st).1 = none ∧
    (getSessionUser env st).2.store =
      { hrms_session_token := none, hrms_user_id := none } ∧
    (getSessionUser env st).2.db.user_sessions =
      st.db.user_sessions.filter (fun s : SessionRow => s.session_token ≠ tok) ∧
    getSessionUser env2 (getSessionUser env st).2 = (none, (getSessionUser env st).2) := by
  simp [getSessionUser, htok, hsf, remoteQuery, maybeSingle, hrow, hexp]

/-- Witness for C3: at time 200 the token `"tok1"` of `stAlice` (expiring at
100) is reaped and the second call returns none. -/
theorem claim3_witness :
    (getSessionUser gsEnvLate stAlice).1 = none ∧
    (getSessionUser gsEnvLate stAlice).2.store =
      { hrms_session_token := none, hrms_user_id := none } ∧
    (getSessionUser gsEnvLate stAlice).2.db.user_sessions =
      stAlice.db.user_sessions.filter (fun s : SessionRow => s.session_token ≠ "tok1") ∧
    getSessionUser gsEnvLate (getSessionUser gsEnvLate stAlice).2 =
      (none, (getSessionUser gsEnvLate stAlice).2) :=
  claim3_expired_session_reaped_idempotently gsEnvLate gsEnvLate stAlice "tok1"
    sampleSession rfl rfl (by decide) (by decide)

/-- C7: for a valid, unexpired session whose Profile resolves but whose user
has no Role-assignment row, `getSessionUser` returns the user view with role
`"employee"` instead of failing, and leaves the state unchanged. -/
theorem claim7_missing_role_defaults_to_employee
    (env : GetSessionEnv) (st : AuthState) (tok : String)
    (srow : SessionRow) (pr : ProfileRow)
    (htok : st.store.hrms_session_token = some tok)
    (hsf : env.sessionFault = false)
    (hrow : st.db.user_sessions.filter (fun s => s.session_token = tok) = [srow])
    (hexp : ¬ srow.expires_at < env.now)
    (hpf : env.profileFault = false)
    (hpr : st.db.profiles.filter (fun p => p.id = srow.profile_id) = [pr])
    (hnorole : st.db.user_roles.filter (fun r => r.user_id = pr.user_id) = []) :
    (getSessionUser env st).1 =
      some { id := pr.user_id, profileId := pr.id, email := pr.email,
             firstName := pr.first_name, lastName := pr.last_name,
             role := "employee" } ∧
    (getSessionUser env st).2 = st := by
  cases hrf : env.roleFault <;>
    simp [getSessionUser, htok, hsf, remoteQuery, maybeSingle, hrow, hexp, hpf, hpr,
      hnorole, hrf, jsOrString]

/-- Witness for C7: at time 50 the session of `stAlice` is unexpired, its
profile resolves, there is no role row, and the view carries role
`"employee"`. -/
theorem claim7_witness :
    (getSessionUser gsEnvEarly stAlice).1 =
      some { id := "u1", profileId := "p1", email := "a@b.com",
             firstName := "Ada", lastName := "Lovelace", role := "employee" } ∧
    (getSessionUser gsEnvEarly stAlice).2 = stAlice :=
  claim7_missing_role_defaults_to_employee gsEnvEarly stAlice "tok1" sampleSession
    sampleProfile rfl rfl (by decide) (by decide) rfl (by decide) (by decide)

/-- C1: with a healthy profile lookup, `tableLogin` fails with exactly
"Invalid email or password" both when no Profile matches the normalized
email and when the matched Profile has a password hash but verification
(healthy, returning false) rejects the password; the two failing results
are one and the same value. -/
theorem claim1_login_failures_indistinguishable
    (env : LoginEnv) (email password : String)
    (hpf : env.profileFault = false) :
    (∀ st : AuthState,
      st.db.profiles.filter (fun p => p.email = normalizeEmail email) = [] →
      (tableLogin env email password st).1 =
        { success := false, user := none, error := some "Invalid email or password" }) ∧
    (∀ (st : AuthState) (pr : ProfileRow) (h : String),
      st.db.profiles.filter (fun p => p.email = normalizeEmail email) = [pr] →
      pr.password_hash = some h → h ≠ "" →
      env.verifyFault = false → env.verify password h = false →
      (tableLogin env email password st).1 =
        { success := false, user := none, error := some "Invalid email or password" }) ∧
    (∀ (st1 st2 : AuthState) (pr : ProfileRow) (h : String),
      st1.db.profiles.filter (fun p => p.email = normalizeEmail email) = [] →
      st2.db.profiles.filter (fun p => p.email = normalizeEmail email) = [pr] →
      pr.password_hash = some h → h ≠ "" →
      env.verifyFault = false → env.verify password h = false →
      (tableLogin env email password st1).1 = (tableLogin env email password st2).1) := by
  refine ⟨fun st hnone => ?_, fun st pr h hone hph hne hvf hv => ?_,
    fun st1 st2 pr h hnone hone hph hne hvf hv => ?_⟩
  · simp [tableLogin, remoteQuery, maybeSingle, hpf, hnone]
  · simp [tableLogin, remoteQuery, maybeSingle, hpf, hone, hph, hne, hvf, hv]
  · simp [tableLogin, remoteQuery, maybeSingle, hpf, hnone, hone, hph, hne, hvf, hv]

/-- Witness for C1: an unknown email and a wrong password against
`sampleProfile` both produce the identical "Invalid email or password"
failure. -/
theorem claim1_witness :
    (tableLogin loginEnvReject "nobody@x.com" "pw" stAlice).1 =
      { success := false, user := none, error := some "Invalid email or password" } ∧
    (tableLogin loginEnvReject "a@b.com" "wrong" stAlice).1 =
      { success := false, user := none, error := some "Invalid email or password" } ∧
    (tableLogin loginEnvReject "nobody@x.com" "pw" stAlice).1 =
      (tableLogin loginEnvReject "a@b.com" "wrong" stAlice).1 := by
  refine ⟨(claim1_login_failures_indistinguishable loginEnvReject "nobody@x.com" "pw"
      rfl).1 stAlice (by decide),
    (claim1_login_failures_indistinguishable loginEnvReject "a@b.com" "wrong"
      rfl).2.1 stAlice sampleProfile "hash1" (by decide) rfl (by decide) rfl rfl, ?_⟩
  rw [(claim1_login_failures_indistinguishable loginEnvReject "nobody@x.com" "pw"
      rfl).1 stAlice (by decide),
    (claim1_login_failures_indistinguishable loginEnvReject "a@b.com" "wrong"
      rfl).2.1 stAlice sampleProfile "hash1" (by decide) rfl (by decide) rfl rfl]

/-- C2: when no Profile holds the normalized email, the generated profile id
is fresh, hashing and the Profile insert succeed, and the Role insert then
faults, `createTableUser` deletes the just-created Profile row, returns
failure "Failed to assign role", and leaves both the profiles and the roles
tables exactly as before the call — zero Profile rows for that email. -/
theorem claim2_role_insert_failure_rolls_back_profile
    (env : CreateUserEnv) (email password firstName lastName role : String)
    (ad : Option AdditionalData) (st : AuthState)
    (h0 : st.db.profiles.filter (fun p => p.email = normalizeEmail email) = [])
    (hfresh : ∀ p ∈ st.db.profiles, p.id ≠ env.newProfileId)
    (hh : env.hashFault = false) (hne : env.hash ≠ "")
    (hpi : env.profileInsertFault = false)
    (hri : env.roleInsertFault = true) :
    (createTableUser env email password firstName lastName role ad st).1 =
      { success := false, userId := none, profileId := none,
        error := some "Failed to assign role" } ∧
    (createTableUser env email password firstName lastName role ad st).2.db.profiles =
      st.db.profiles ∧
    (createTableUser env email password firstName lastName role ad st).2.db.user_roles =
      st.db.user_roles ∧
    (createTableUser env email password firstName lastName role ad st).2.db.profiles.filter
      (fun p => p.email = normalizeEmail email) = [] := by
  have hfilter : st.db.profiles.filter (fun p : ProfileRow => p.id ≠ env.newProfileId) =
      st.db.profiles :=
    List.filter_eq_self.mpr (fun p hp => by simpa using hfresh p hp)
  cases hef : env.existsFault <;>
    refine ⟨?_, ?_, ?_, ?_⟩ <;>
      simp [createTableUser, remoteQuery, maybeSingle, h0, hh, hne, hpi, hri, hef,
        hfilter] <;>
      first
        | exact fun a ha => hfresh a ha
        | exact fun a ha hmail =>
            absurd hmail (by simpa using List.filter_eq_nil_iff.mp h0 a ha)

/-- Witness for C2: creating `"new@x.com"` in `stAlice` with a faulting role
insert leaves the profiles table exactly as it was. -/
theorem claim2_witness :
    (createTableUser cuEnvRoleFail "new@x.com" "pw" "N" "U" "hr" none stAlice).1 =
      { success := false, userId := none, profileId := none,
        error := some "Failed to assign role" } ∧
    (createTableUser cuEnvRoleFail "new@x.com" "pw" "N" "U" "hr" none stAlice).2.db.profiles =
      stAlice.db.profiles ∧
    (createTableUser cuEnvRoleFail "new@x.com" "pw" "N" "U" "hr" none stAlice).2.db.user_roles =
      stAlice.db.user_roles ∧
    (createTableUser cuEnvRoleFail "new@x.com" "pw" "N" "U" "hr" none
      stAlice).2.db.profiles.filter (fun p => p.email = normalizeEmail "new@x.com") = [] :=
  claim2_role_insert_failure_rolls_back_profile cuEnvRoleFail "new@x.com" "pw" "N" "U"
    "hr" none stAlice (by decide) (by decide) rfl (by decide) rfl rfl

/-- C6: `tableLogin` and `createTableUser` apply the same
lowercase-then-trim normalization to the email, so any two emails equal up
to case and surrounding whitespace — such as `"Foo@Bar.com "` and
`"foo@bar.com"` — drive both operations to identical outcomes on every
state. -/
theorem claim6_login_and_signup_normalize_email_identically
    (e1 e2 : String) (hnorm : normalizeEmail e1 = normalizeEmail e2) :
    normalizeEmail "Foo@Bar.com " = normalizeEmail "foo@bar.com" ∧
    (∀ (env : LoginEnv) (pw : String) (st : AuthState),
      tableLogin env e1 pw st = tableLogin env e2 pw st) ∧
    (∀ (cenv : CreateUserEnv) (pw fn ln role : String) (ad : Option AdditionalData)
        (st : AuthState),
      createTableUser cenv e1 pw fn ln role ad st =
        createTableUser cenv e2 pw fn ln role ad st) := by
  refine ⟨by decide, fun env pw st => ?_, fun cenv pw fn ln role ad st => ?_⟩
  · unfold tableLogin
    rw [hnorm]
  · unfold createTableUser
    rw [hnorm]

/-- Witness for C6: logging in and signing up with `"Foo@Bar.com "` behave
exactly as with `"foo@bar.com"` on the concrete state `stAlice`. -/
theorem claim6_witness :
    tableLogin loginEnvReject "Foo@Bar.com " "pw" stAlice =
      tableLogin loginEnvReject "foo@bar.com" "pw" stAlice ∧
    createTableUser cuEnvOk "Foo@Bar.com " "pw" "X" "Y" "hr" none stAlice =
      createTableUser cuEnvOk "foo@bar.com" "pw" "X" "Y" "hr" none stAlice :=
  ⟨(claim6_login_and_signup_normalize_email_identically "Foo@Bar.com " "foo@bar.com"
      (by decide)).2.1 loginEnvReject "pw" stAlice,
   (claim6_login_and_signup_normalize_email_identically "Foo@Bar.com " "foo@bar.com"
      (by decide)).2.2 cuEnvOk "pw" "X" "Y" "hr" none stAlice⟩

/-- C5: a failing `tableLogin` call leaves the Session table and the session
store untouched, whatever the failure (fault, absent profile, missing hash,
rejected password, missing role, insert fault); a successful call inserts
exactly one Session row and writes both store keys, with the stored token
equal to the token of the inserted row. -/
theorem claim5_session_effects_only_on_success
    (env : LoginEnv) (email password : String) (st : AuthState) :
    ((tableLogin env email password st).1.success = false →
      (tableLogin env email password st).2.db.user_sessions = st.db.user_sessions ∧
      (tableLogin env email password st).2.store = st.store) ∧
    ((tableLogin env email password st).1.success = true →
      ∃ row : SessionRow,
        (tableLogin env email password st).2.db.user_sessions =
          row :: st.db.user_sessions ∧
        (tableLogin env email password st).2.store.hrms_session_token =
          some row.session_token ∧
        ∃ uid, (tableLogin env email password st).2.store.hrms_user_id = some uid) := by
  unfold tableLogin
  repeat' split
  all_goals refine ⟨fun hs => ?_, fun hs => ?_⟩
  all_goals try exact ⟨rfl, rfl⟩
  all_goals try simp at hs
  exact ⟨_, rfl, rfl, _, rfl⟩

/-- Witness for C5: a rejected password against `stAliceHr` leaves sessions
and store untouched; the same account with accepted verification inserts a
row and writes the store. -/
theorem claim5_witness :
    ((tableLogin loginEnvReject "a@b.com" "wrong" stAliceHr).2.db.user_sessions =
        stAliceHr.db.user_sessions ∧
      (tableLogin loginEnvReject "a@b.com" "wrong" stAliceHr).2.store =
        stAliceHr.store) ∧
    (∃ row : SessionRow,
      (tableLogin loginEnvAccept "a@b.com" "pw" stAliceHr).2.db.user_sessions =
        row :: stAliceHr.db.user_sessions ∧
      (tableLogin loginEnvAccept "a@b.com" "pw" stAliceHr).2.store.hrms_session_token =
        some row.session_token ∧
      ∃ uid, (tableLogin loginEnvAccept "a@b.com" "pw" stAliceHr).2.store.hrms_user_id =
        some uid) :=
  ⟨(claim5_session_effects_only_on_success loginEnvReject "a@b.com" "wrong" stAliceHr).1
      (by decide),
   (claim5_session_effects_only_on_success loginEnvAccept "a@b.com" "pw" stAliceHr).2
      (by decide)⟩

set_option maxRecDepth 4096 in
/-- Character-level description of `byteToHex` on byte values. -/
theorem byteToHex_fin_eq : ∀ b : Fin 256,
    byteToHex b.val = String.mk [Nat.digitChar (b.val / 16), Nat.digitChar (b.val % 16)] := by
  decide

/-- Injectivity of `Nat.digitChar` below 16. -/
theorem digitChar_inj_lt16 : ∀ m n : Fin 16,
    Nat.digitChar m.val = Nat.digitChar n.val → m = n := by decide

/-- Below sixteen, `Nat.digitChar` yields a lowercase hex digit. -/
theorem digitChar_lowerHex : ∀ n : Fin 16, isLowerHexDigit (Nat.digitChar n.val) = true := by
  decide

/-- The data of `byteToHex b` for a byte value `b`. -/
theorem byteToHex_data (b : Nat) (hb : b < 256) :
    (byteToHex b).data = [Nat.digitChar (b / 16), Nat.digitChar (b % 16)] := by
  simpa using congrArg String.data (byteToHex_fin_eq ⟨b, hb⟩)

/-- Each byte is padded to exactly two characters. -/
theorem byteToHex_length_two (b : Nat) (hb : b < 256) : (byteToHex b).length = 2 := by
  simp [String.length, byteToHex_data b hb]

/-- Injectivity of `byteToHex` on byte values. -/
theorem byteToHex_inj (b1 b2 : Nat) (h1 : b1 < 256) (h2 : b2 < 256)
    (he : byteToHex b1 = byteToHex b2) : b1 = b2 := by
  have hd := congrArg String.data he
  rw [byteToHex_data b1 h1, byteToHex_data b2 h2] at hd
  simp only [List.cons.injEq, and_true] at hd
  obtain ⟨e1, e2⟩ := hd
  have q1 : (⟨b1 / 16, by omega⟩ : Fin 16) = ⟨b2 / 16, by omega⟩ :=
    digitChar_inj_lt16 _ _ e1
  have q2 : (⟨b1 % 16, by omega⟩ : Fin 16) = ⟨b2 % 16, by omega⟩ :=
    digitChar_inj_lt16 _ _ e2
  have r1 : b1 / 16 = b2 / 16 := congrArg Fin.val q1
  have r2 : b1 % 16 = b2 % 16 := congrArg Fin.val q2
  omega

/-- Unfolding of `hexDataOf` on a cons. -/
theorem hexDataOf_cons (b : Nat) (t : List Nat) :
    hexDataOf (b :: t) = (byteToHex b).data ++ hexDataOf t := rfl

/-- Data of a `foldl`-style string concatenation. -/
theorem foldl_append_data (l : List String) :
    ∀ a : String, (l.foldl (fun r s => r ++ s) a).data =
      a.data ++ l.foldr (fun s acc => s.data ++ acc) [] := by
  induction l with
  | nil => intro a; simp
  | cons x xs ih => intro a; simp [List.foldl_cons, List.foldr_cons, ih (a ++ x)]

/-- The characters of the token are exactly the concatenated per-byte encodings. -/
theorem generateSessionToken_data (bytes : List Nat) :
    (generateSessionToken bytes).data = hexDataOf bytes := by
  unfold generateSessionToken String.join
  rw [foldl_append_data]
  simp [hexDataOf, List.foldr_map]

/-- Length of the hex data: two characters per byte. -/
theorem hexDataOf_length (bytes : List Nat) (hv : ∀ b ∈ bytes, b < 256) :
    (hexDataOf bytes).length = 2 * bytes.length := by
  induction bytes with
  | nil => simp [hexDataOf]
  | cons b t ih =>
    have hb : b < 256 := hv b (List.mem_cons_self b t)
    have ht : ∀ x ∈ t, x < 256 := fun x hx => hv x (List.mem_cons_of_mem b hx)
    rw [hexDataOf_cons, List.length_append, byteToHex_data b hb, ih ht]
    simp
    omega

/-- Every character of the hex data is a lowercase hex digit. -/
theorem hexDataOf_lowerHex (bytes : List Nat) (hv : ∀ b ∈ bytes, b < 256) :
    ∀ c ∈ hexDataOf bytes, isLowerHexDigit c = true := by
  induction bytes with
  | nil => simp [hexDataOf]
  | cons b t ih =>
    have hb : b < 256 := hv b (List.mem_cons_self b t)
    have ht : ∀ x ∈ t, x < 256 := fun x hx => hv x (List.mem_cons_of_mem b hx)
    intro c hc
    rw [hexDataOf_cons, byteToHex_data b hb] at hc
    rcases List.mem_append.mp hc with h2 | h2
    · simp only [List.mem_cons, List.not_mem_nil, or_false] at h2
      rcases h2 with h3 | h3
      · subst h3
        exact digitChar_lowerHex ⟨b / 16, by omega⟩
      · subst h3
        exact digitChar_lowerHex ⟨b % 16, by omega⟩
    · exact ih ht c h2

/-- The concatenated hex encoding is injective on equal-length byte lists. -/
theorem hexDataOf_inj : ∀ (l1 l2 : List Nat), (∀ b ∈ l1, b < 256) → (∀ b ∈ l2, b < 256) →
    l1.length = l2.length → hexDataOf l1 = hexDataOf l2 → l1 = l2 := by
  intro l1
  induction l1 with
  | nil =>
    intro l2 _ _ hlen _
    cases l2 with
    | nil => rfl
    | cons b2 t2 => simp at hlen
  | cons b1 t1 ih =>
    intro l2 hv1 hv2 hlen heq
    cases l2 with
    | nil => simp at hlen
    | cons b2 t2 =>
      have hb1 : b1 < 256 := hv1 b1 (List.mem_cons_self b1 t1)
      have hb2 : b2 < 256 := hv2 b2 (List.mem_cons_self b2 t2)
      have ht1 : ∀ x ∈ t1, x < 256 := fun x hx => hv1 x (List.mem_cons_of_mem b1 hx)
      have ht2 : ∀ x ∈ t2, x < 256 := fun x hx => hv2 x (List.mem_cons_of_mem b2 hx)
      rw [hexDataOf_cons, hexDataOf_cons, byteToHex_data b1 hb1, byteToHex_data b2 hb2] at heq
      simp only [List.cons_append, List.nil_append, List.cons.injEq] at heq
      obtain ⟨e1, e2, e3⟩ := heq
      have q1 : (⟨b1 / 16, by omega⟩ : Fin 16) = ⟨b2 / 16, by omega⟩ :=
        digitChar_inj_lt16 _ _ e1
      have q2 : (⟨b1 % 16, by omega⟩ : Fin 16) = ⟨b2 % 16, by omega⟩ :=
        digitChar_inj_lt16 _ _ e2
      have r1 : b1 / 16 = b2 / 16 := congrArg Fin.val q1
      have r2 : b1 % 16 = b2 % 16 := congrArg Fin.val q2
      have hb : b1 = b2 := by omega
      have hlen' : t1.length = t2.length := by simpa using hlen
      rw [hb, ih t2 ht1 ht2 hlen' e3]

/-- A successful `tableLogin` stores exactly the token generated from the
random bytes of the environment. -/
theorem tableLogin_success_stores_generated_token
    (env : LoginEnv) (email password : String) (st : AuthState)
    (hs : (tableLogin env email password st).1.success = true) :
    (tableLogin env email password st).2.store.hrms_session_token =
      some (generateSessionToken env.tokenBytes) := by
  revert hs
  unfold tableLogin
  repeat' split
  all_goals intro hs
  all_goals first
    | rfl
    | simp at hs

/-- C4: from 32 byte values, `generateSessionToken` produces a 64-character
string of lowercase hex digits with each byte zero-padded to two
characters; distinct byte draws give distinct tokens, and two sequential
successful `tableLogin` calls for the same account store distinct tokens
whenever their random bytes differ. -/
theorem claim4_token_hex_shape_and_uniqueness
    (bytes1 bytes2 : List Nat)
    (hlen1 : bytes1.length = 32) (hval1 : ∀ b ∈ bytes1, b < 256)
    (hlen2 : bytes2.length = 32) (hval2 : ∀ b ∈ bytes2, b < 256) :
    (generateSessionToken bytes1).length = 64 ∧
    (∀ c ∈ (generateSessionToken bytes1).data, isLowerHexDigit c = true) ∧
    (∀ b ∈ bytes1, (byteToHex b).length = 2) ∧
    (bytes1 ≠ bytes2 → generateSessionToken bytes1 ≠ generateSessionToken bytes2) ∧
    (∀ (env1 env2 : LoginEnv) (email password : String) (st : AuthState),
      env1.tokenBytes = bytes1 → env2.tokenBytes = bytes2 → bytes1 ≠ bytes2 →
      (tableLogin env1 email password st).1.success = true →
      (tableLogin env2 email password (tableLogin env1 email password st).2).1.success =
        true →
      (tableLogin env1 email password st).2.store.hrms_session_token ≠
        (tableLogin env2 email password
          (tableLogin env1 email password st).2).2.store.hrms_session_token) := by
  have hne : bytes1 ≠ bytes2 → generateSessionToken bytes1 ≠ generateSessionToken bytes2 := by
    intro hd he
    exact hd (hexDataOf_inj bytes1 bytes2 hval1 hval2 (by omega)
      (by rw [← generateSessionToken_data, ← generateSessionToken_data, he]))
  refine ⟨?_, ?_, ?_, hne, ?_⟩
  · show (generateSessionToken bytes1).data.length = 64
    rw [generateSessionToken_data, hexDataOf_length bytes1 hval1, hlen1]
  · intro c hc
    rw [generateSessionToken_data] at hc
    exact hexDataOf_lowerHex bytes1 hval1 c hc
  · intro b hb
    exact byteToHex_length_two b (hval1 b hb)
  · intro env1 env2 email password st he1 he2 hd hs1 hs2
    rw [tableLogin_success_stores_generated_token env1 email password st hs1,
      tableLogin_success_stores_generated_token env2 email password _ hs2, he1, he2]
    intro hsome
    exact hne hd (Option.some.injEq _ _ ▸ hsome ▸ rfl)

/-- Witness for C4: the token from `bytesA` has 64 lowercase-hex characters,
and two sequential successful logins drawing `bytesA` then `bytesB` store
different tokens. -/
theorem claim4_witness :
    (generateSessionToken bytesA).length = 64 ∧
    (tableLogin loginEnvTokA "a@b.com" "pw" stAliceHr).2.store.hrms_session_token ≠
      (tableLogin loginEnvTokB "a@b.com" "pw"
        (tableLogin loginEnvTokA "a@b.com" "pw" stAliceHr).2).2.store.hrms_session_token :=
  ⟨(claim4_token_hex_shape_and_uniqueness bytesA bytesB rfl (by decide) rfl
      (by decide)).1,
   (claim4_token_hex_shape_and_uniqueness bytesA bytesB rfl (by decide) rfl
      (by decide)).2.2.2.2 loginEnvTokA loginEnvTokB "a@b.com" "pw" stAliceHr rfl rfl
      (by decide) (by decide) (by decide)⟩

end TableAuth
